import Mathlib

/-!
Verification of the atlantis event-to-execution pipeline against its
natural-language specification.

The development shallowly embeds the Go source: pure functions become Lean
functions; code whose behaviour depends on the operating system, on git
subprocesses or on collaborator interfaces is parameterised by an explicit
environment record holding the outcomes of those calls, and the observable
actions (subprocesses spawned, file-system mutations, VCS comments, lock
acquisitions) are returned as an explicit effect trace in the order the code
performs them.  Go strings are modelled as Lean strings (character
sequences), Go machine integers as Int or Nat, and fallible Go code returns
Except or Option.
-/

/-- models.VCSHostType: the supported VCS hosts. -/
inductive VCSHostType where
  | github
  | gitlab
deriving DecidableEq

/-- models.Repo: the fields the embedded code reads. -/
structure Repo where
  fullName : String
  owner : String
  cloneURL : String
  sanitizedCloneURL : String
deriving DecidableEq

/-- models.PullRequest: the fields the embedded code reads. -/
structure PullRequest where
  num : Int
  headCommit : String
  branch : String
deriving DecidableEq

/-- Outcome of a subprocess run observed through CombinedOutput: the combined
stdout/stderr output, plus the error message when the command failed. -/
inductive CmdResult where
  | ok (output : String)
  | err (output : String) (errMsg : String)
deriving DecidableEq

/-- Observable actions of FileWorkspace operations: git subprocesses spawned
and file-system mutations, recorded in execution order. -/
inductive Eff where
  | gitRevParse (dir : String)
  | removeAll (dir : String)
  | mkdirAll (dir : String) (perm : Nat)
  | gitClone (url : String) (dir : String)
  | gitCheckout (branch : String) (dir : String)
deriving DecidableEq

/-- Environment of one FileWorkspace.Clone call: what the OS and the git
subprocesses would answer at each step.  `dirExists` is whether os.Stat on
the clone directory succeeds; `revParse` is the result of
`git rev-parse HEAD` run there; the remaining fields are the outcomes of the
steps of forceClone. -/
structure CloneEnv where
  dirExists : Bool
  revParse : CmdResult
  removeErr : Option String
  mkdirErr : Option String
  cloneRes : CmdResult
  checkoutErr : Option String
deriving DecidableEq

/-- events.FileWorkspace. -/
structure FileWorkspace where
  dataDir : String
  testingOverrideCloneURL : String
deriving DecidableEq

/-- filepath.Join(w.DataDir, "repos", r.FullName, strconv.Itoa(p.Num)),
with the workingDir constant "repos" inlined. -/
def FileWorkspace.repoPullDir (w : FileWorkspace) (r : Repo) (p : PullRequest) : String :=
  w.dataDir ++ "/repos/" ++ r.fullName ++ "/" ++ toString p.num

/-- filepath.Join(w.repoPullDir(r, p), workspace). -/
def FileWorkspace.cloneDir (w : FileWorkspace) (r : Repo) (p : PullRequest) (workspace : String) : String :=
  w.repoPullDir r p ++ "/" ++ workspace

/-- strings.Trim(s, "\n"): drop newline characters from both ends. -/
def trimNewlines (s : String) : String :=
  String.mk (((s.data.dropWhile fun c => c = '\n').reverse.dropWhile fun c => c = '\n').reverse)

/-- FileWorkspace.forceClone: delete the clone directory, recreate it (0700,
i.e. permission bits 448), `git clone` the head repo (or the testing override
URL when non-empty) into it, and check out the PR branch there.  Error
messages follow the pkg/errors wrapping in the source. -/
def FileWorkspace.forceClone (w : FileWorkspace) (env : CloneEnv) (cd : String) (headRepo : Repo)
    (p : PullRequest) : Except String String × List Eff :=
  match env.removeErr with
  | some e =>
      (Except.error ("deleting dir \"" ++ cd ++ "\" before cloning: " ++ e), [Eff.removeAll cd])
  | none =>
      match env.mkdirErr with
      | some e =>
          (Except.error ("creating new workspace: " ++ e), [Eff.removeAll cd, Eff.mkdirAll cd 448])
      | none =>
          let cloneURL := if w.testingOverrideCloneURL ≠ "" then w.testingOverrideCloneURL else headRepo.cloneURL
          match env.cloneRes with
          | CmdResult.err output e =>
              (Except.error ("cloning " ++ headRepo.sanitizedCloneURL ++ ": " ++ output ++ ": " ++ e),
               [Eff.removeAll cd, Eff.mkdirAll cd 448, Eff.gitClone cloneURL cd])
          | CmdResult.ok _ =>
              match env.checkoutErr with
              | some e =>
                  (Except.error ("checking out branch " ++ p.branch ++ ": " ++ e),
                   [Eff.removeAll cd, Eff.mkdirAll cd 448, Eff.gitClone cloneURL cd,
                    Eff.gitCheckout p.branch cd])
              | none =>
                  (Except.ok cd,
                   [Eff.removeAll cd, Eff.mkdirAll cd 448, Eff.gitClone cloneURL cd,
                    Eff.gitCheckout p.branch cd])

/-- FileWorkspace.Clone: if the clone directory exists, run
`git rev-parse HEAD` in it; when that succeeds and the trimmed output equals
the PR head commit, return the directory unchanged; otherwise fall through to
forceClone.  When the directory does not exist, forceClone directly. -/
def FileWorkspace.clone (w : FileWorkspace) (env : CloneEnv) (baseRepo headRepo : Repo)
    (p : PullRequest) (workspace : String) : Except String String × List Eff :=
  let cd := w.cloneDir baseRepo p workspace
  if env.dirExists then
    match env.revParse with
    | CmdResult.err _ _ =>
        let fc := w.forceClone env cd headRepo p
        (fc.1, Eff.gitRevParse cd :: fc.2)
    | CmdResult.ok output =>
        if trimNewlines output = p.headCommit then
          (Except.ok cd, [Eff.gitRevParse cd])
        else
          let fc := w.forceClone env cd headRepo p
          (fc.1, Eff.gitRevParse cd :: fc.2)
  else
    w.forceClone env cd headRepo p

/-- Number of `git clone` subprocesses in an effect trace. -/
def countGitClone : List Eff → Nat
  | [] => 0
  | Eff.gitClone _ _ :: t => 1 + countGitClone t
  | _ :: t => countGitClone t

/-- The condition under which Clone falls through to forceClone: the clone
directory is absent, or `git rev-parse HEAD` fails, or its trimmed output
differs from the PR head commit. -/
def needsForce (env : CloneEnv) (p : PullRequest) : Prop :=
  env.dirExists = false ∨ (∃ o e, env.revParse = CmdResult.err o e) ∨
    (∃ o, env.revParse = CmdResult.ok o ∧ trimNewlines o ≠ p.headCommit)

/-- The effect prefix contributed by the existence check: a `git rev-parse`
run when the directory exists, nothing otherwise. -/
def statEff (env : CloneEnv) (cd : String) : List Eff :=
  if env.dirExists then [Eff.gitRevParse cd] else []

/-- The Go error model needed for GetWorkingDir: a stat failure is an
os *PathError (carrying whether its errno is ENOENT); pkg/errors.Wrap
produces a message-wrapper node around the cause. -/
inductive GoErr where
  | pathError (op : String) (path : String) (isENOENT : Bool)
  | withMessage (msg : String) (cause : GoErr)
deriving DecidableEq

/-- os.IsNotExist from the Go standard library: it unwraps only the os error
types (*PathError and friends) and compares the errno; it does not look
through pkg/errors wrapper types, so a wrapped not-exist error is not
recognized. -/
def isNotExist : GoErr → Bool
  | GoErr.pathError _ _ ne => ne
  | GoErr.withMessage _ _ => false

/-- FileWorkspace.GetWorkingDir: stat the clone directory; on any stat error
return the empty path and errors.Wrap(err, "checking if workspace exists");
otherwise return the path.  `statErr` is what os.Stat reports. -/
def FileWorkspace.getWorkingDir (w : FileWorkspace) (statErr : Option GoErr) (r : Repo)
    (p : PullRequest) (workspace : String) : Except GoErr String :=
  match statErr with
  | some e => Except.error (GoErr.withMessage "checking if workspace exists" e)
  | none => Except.ok (w.cloneDir r p workspace)

/-- Constant reqIDSize from the events controller. -/
def reqIDSize : Nat := 7

/-- One hex digit, lowercase, as produced by encoding/hex. -/
def hexDigit (n : Nat) : Char :=
  if n < 10 then Char.ofNat (48 + n) else Char.ofNat (87 + n)

/-- hex.EncodeToString over a byte list: two lowercase hex digits per byte,
high nibble first. -/
def hexEncodeBytes : List Nat → List Char
  | [] => []
  | b :: bs => hexDigit (b % 256 / 16) :: hexDigit (b % 16) :: hexEncodeBytes bs

/-- EventsController.genRequestID: read reqIDSize random bytes (the byte
stream `rnd`; `randErr` is whether crypto/rand.Read fails) and hex-encode
them; on a read failure return "genfail". -/
def genRequestID (randErr : Bool) (rnd : Nat → Nat) : String :=
  if randErr then "genfail"
  else String.mk (hexEncodeBytes ((List.range reqIDSize).map rnd))

/-- EventsController.githubRequestID: pad the GitHub Delivery header with
int(math.Max(reqIDSize-len(header), 0)) random hex-encoded bytes (Nat
subtraction is exactly that max), then truncate the concatenation to
reqIDSize. -/
def githubRequestID (randErr : Bool) (rnd : Nat → Nat) (header : String) : String :=
  let remaining := reqIDSize - header.length
  if randErr then "genfail"
  else String.mk ((header.data ++ hexEncodeBytes ((List.range remaining).map rnd)).take reqIDSize)

/-- EventsController.supportsHost: linear scan of SupportedVCSHosts. -/
def supportsHost : List VCSHostType → VCSHostType → Bool
  | [], _ => false
  | s :: rest, h => if h = s then true else supportsHost rest h

/-- The EventsController state the embedded handlers read. -/
structure EventsController where
  supportedVCSHosts : List VCSHostType
deriving DecidableEq

/-- Outcome of EventsController.Post: the request is handed to the GitHub or
GitLab host path (with the request ID attached to the context logger), or
answered directly with a status code and message. -/
inductive PostOutcome where
  | dispatchGithub (reqid : String)
  | dispatchGitlab (reqid : String)
  | respond (code : Nat) (msg : String)
deriving DecidableEq

/-- EventsController.Post: branch on the X-Github-Event header first, then on
X-Gitlab-Event; with neither header respond 400 "Ignoring request".
`ghEvent`/`glEvent`/`ghDelivery` are the header values (empty = absent). -/
def EventsController.post (e : EventsController) (randErr : Bool) (rnd : Nat → Nat)
    (ghEvent glEvent ghDelivery : String) : PostOutcome :=
  if ghEvent ≠ "" then
    if supportsHost e.supportedVCSHosts VCSHostType.github then
      PostOutcome.dispatchGithub (githubRequestID randErr rnd ghDelivery)
    else PostOutcome.respond 400 "Ignoring request since not configured to support GitHub"
  else if glEvent ≠ "" then
    if supportsHost e.supportedVCSHosts VCSHostType.gitlab then
      PostOutcome.dispatchGitlab (genRequestID randErr rnd)
    else PostOutcome.respond 400 "Ignoring request since not configured to support GitLab"
  else PostOutcome.respond 400 "Ignoring request"

/-- The fields of events.CommentParseResult the controller reads. -/
structure CommentParseResult where
  ignore : Bool
  commentResponse : String
deriving DecidableEq

/-- An HTTP response produced through EventsController.respond (or the
implicit 200 of a plain write): status code, body message, and the extra
key/value context passed to the logger. -/
structure Response where
  code : Nat
  msg : String
  logKV : List (String × String)
deriving DecidableEq

/-- Observable collaborator calls of handleCommentEvent. -/
inductive CommentEff where
  | createComment (repoFullName : String) (pullNum : Int) (body : String)
  | runCommentCommand (repoFullName : String) (pullNum : Int)
deriving DecidableEq

/-- Environment of one handleCommentEvent call: what the comment parser and
the whitelist checker answer. -/
structure CommentEnv where
  parseResult : CommentParseResult
  whitelisted : Bool
deriving DecidableEq

/-- The comment truncation performed before logging an ignored comment:
at most 40 characters, with "..." appended when something was cut. -/
def truncateComment (comment : String) : String :=
  if comment.length > 40 then String.mk (comment.data.take 40) ++ "..." else comment

/-- The fixed body of the not-whitelisted comment. -/
def notWhitelistedMsg : String :=
  "```\nError: This repo is not whitelisted for Atlantis.\n```"

/-- EventsController.handleCommentEvent: parser ignore check, whitelist
check, direct comment response, then runner invocation, in source order.
The runner call is recorded as an effect whether it runs in a goroutine or
synchronously (testing mode). -/
def handleCommentEvent (env : CommentEnv) (baseRepo : Repo) (pullNum : Int) (comment : String) :
    Response × List CommentEff :=
  if env.parseResult.ignore then
    ({ code := 200, msg := "Ignoring non-command", logKV := [("comment", truncateComment comment)] },
     [])
  else if env.whitelisted = false then
    ({ code := 403, msg := "Repo not whitelisted", logKV := [("repo", baseRepo.fullName)] },
     [CommentEff.createComment baseRepo.fullName pullNum notWhitelistedMsg])
  else if env.parseResult.commentResponse ≠ "" then
    ({ code := 200, msg := "Commenting back on pull request", logKV := [] },
     [CommentEff.createComment baseRepo.fullName pullNum env.parseResult.commentResponse])
  else
    ({ code := 200, msg := "Processing...", logKV := [] },
     [CommentEff.runCommentCommand baseRepo.fullName pullNum])

/-- valid.Project: the fields the builder reads. -/
structure ValidProject where
  dir : String
  workspace : String
  name : Option String
deriving DecidableEq

/-- valid.Config: the parsed repo-local configuration, reduced to its project
list, which is all the embedded builder code consults. -/
structure ValidConfig where
  projects : List ValidProject
deriving DecidableEq

/-- Modelled from the spec: valid.Config.FindProjectsByDirWorkspace is not
under src; the spec calls it a pure query over a parsed Config, returning the
projects whose directory and workspace equal the arguments. -/
def ValidConfig.findProjectsByDirWorkspace (c : ValidConfig) (dir workspace : String) :
    List ValidProject :=
  c.projects.filter fun pr => pr.dir = dir && pr.workspace = workspace

/-- Modelled from the spec: valid.Config.FindProjectByName is not under src;
the spec calls it a pure query by (unique) project name. -/
def ValidConfig.findProjectByName (c : ValidConfig) (n : String) : Option ValidProject :=
  (c.projects.filter fun pr => pr.name = some n).head?

/-- events.DefaultProjectCommandBuilder: the configuration fields the
embedded methods read (the collaborator interfaces live in BuilderEnv). -/
structure DefaultProjectCommandBuilder where
  allowRepoConfig : Bool
  allowRepoConfigFlag : String
deriving DecidableEq

/-- Environment of one builder call: the answers of the workspace locker, the
working-directory manager, the config parser, the VCS client and the project
finder. -/
structure BuilderEnv where
  tryLockErr : Option String
  cloneRes : Except String String
  getWorkingDirRes : Except String String
  hasConfigFile : Except String Bool
  readConfig : Except String ValidConfig
  modifiedFiles : Except String (List String)
  determineProjects : List String
  projectsViaConfig : Except String (List ValidProject)

/-- events.CommandContext: the fields the builder reads. -/
structure CommandContext where
  baseRepo : Repo
  headRepo : Repo
  pull : PullRequest
  user : String
deriving DecidableEq

/-- events.CommentCommand: the fields the builder reads. -/
structure CommentCommand where
  repoRelDir : String
  workspace : String
  projectName : String
  flags : List String
deriving DecidableEq

/-- models.ProjectCommandContext: the fields the builder writes (the logger
is threaded through unchanged and is not modelled). -/
structure ProjectCommandContext where
  baseRepo : Repo
  headRepo : Repo
  pull : PullRequest
  user : String
  repoRelDir : String
  workspace : String
  projectConfig : Option ValidProject
  globalConfig : Option ValidConfig
  commentArgs : List String
deriving DecidableEq

/-- The events.DefaultWorkspace constant; its value "default" is given by the
spec (the defining line is not under src). -/
def DefaultWorkspace : String := "default"

/-- errors.Wrapf(err, "looking for %s file in %q", AtlantisYAMLFilename, repoDir). -/
def errLookingFor (repoDir e : String) : String :=
  "looking for atlantis.yaml file in \"" ++ repoDir ++ "\": " ++ e

/-- The repo-config-not-allowed error message. -/
def repoConfigNotAllowedErr (flag : String) : String :=
  "atlantis.yaml files not allowed because Atlantis is not running with --" ++ flag

/-- DefaultProjectCommandBuilder.getCfg: resolve the project and global
config for a comment command, following the source policy line by line. -/
def DefaultProjectCommandBuilder.getCfg (b : DefaultProjectCommandBuilder) (env : BuilderEnv)
    (projectName dir workspace repoDir : String) :
    Except String (Option ValidProject × Option ValidConfig) :=
  match env.hasConfigFile with
  | Except.error e => Except.error (errLookingFor repoDir e)
  | Except.ok false =>
      if projectName ≠ "" then
        Except.error "cannot specify a project name unless an atlantis.yaml file exists to configure projects"
      else Except.ok (none, none)
  | Except.ok true =>
      if b.allowRepoConfig = false then Except.error (repoConfigNotAllowedErr b.allowRepoConfigFlag)
      else
        match env.readConfig with
        | Except.error e => Except.error e
        | Except.ok globalCfg =>
            if projectName ≠ "" then
              match globalCfg.findProjectByName projectName with
              | none =>
                  Except.error ("no project with name \"" ++ projectName ++ "\" is defined in atlantis.yaml")
              | some projCfg => Except.ok (some projCfg, some globalCfg)
            else
              match globalCfg.findProjectsByDirWorkspace dir workspace with
              | [] => Except.ok (none, none)
              | [pc] => Except.ok (some pc, some globalCfg)
              | _ =>
                  Except.error ("must specify project name: more than one project defined in atlantis.yaml matched dir: \"" ++ dir ++ "\" workspace: \"" ++ workspace ++ "\"")

/-- DefaultProjectCommandBuilder.buildProjectCommandCtx: resolve config via
getCfg, then override the comment's dir/workspace with the project config
when one was found. -/
def DefaultProjectCommandBuilder.buildProjectCommandCtx (b : DefaultProjectCommandBuilder)
    (env : BuilderEnv) (ctx : CommandContext) (cmd : CommentCommand) (repoDir : String) :
    Except String ProjectCommandContext :=
  match b.getCfg env cmd.projectName cmd.repoRelDir cmd.workspace repoDir with
  | Except.error e => Except.error e
  | Except.ok (projCfg, globalCfg) =>
      let dir := match projCfg with | some pc => pc.dir | none => cmd.repoRelDir
      let workspace := match projCfg with | some pc => pc.workspace | none => cmd.workspace
      Except.ok { baseRepo := ctx.baseRepo, headRepo := ctx.headRepo, pull := ctx.pull,
                  user := ctx.user, repoRelDir := dir, workspace := workspace,
                  projectConfig := projCfg, globalConfig := globalCfg, commentArgs := cmd.flags }

/-- Workspace-lock events of one builder call, in execution order.  `lock`
is a successful WorkingDirLocker.TryLock acquisition, `unlock` the deferred
release that Go runs on every return path after the acquisition. -/
inductive LockEff where
  | lock
  | unlock
deriving DecidableEq

/-- DefaultProjectCommandBuilder.BuildAutoplanCommands: lock the default
workspace, clone, parse the optional config, fetch modified files, then
materialize one context per affected project.  Every return after the
successful TryLock releases the lock (the deferred unlockFn). -/
def DefaultProjectCommandBuilder.buildAutoplanCommands (b : DefaultProjectCommandBuilder)
    (env : BuilderEnv) (ctx : CommandContext) :
    Except String (List ProjectCommandContext) × List LockEff :=
  match env.tryLockErr with
  | some e => (Except.error e, [])
  | none =>
      match env.cloneRes with
      | Except.error e => (Except.error e, [LockEff.lock, LockEff.unlock])
      | Except.ok repoDir =>
          match env.hasConfigFile with
          | Except.error e => (Except.error (errLookingFor repoDir e), [LockEff.lock, LockEff.unlock])
          | Except.ok true =>
              if b.allowRepoConfig = false then
                (Except.error (repoConfigNotAllowedErr b.allowRepoConfigFlag),
                 [LockEff.lock, LockEff.unlock])
              else
                match env.readConfig with
                | Except.error e => (Except.error e, [LockEff.lock, LockEff.unlock])
                | Except.ok config =>
                    match env.modifiedFiles with
                    | Except.error e => (Except.error e, [LockEff.lock, LockEff.unlock])
                    | Except.ok _ =>
                        match env.projectsViaConfig with
                        | Except.error e => (Except.error e, [LockEff.lock, LockEff.unlock])
                        | Except.ok mps =>
                            (Except.ok (mps.map fun mp =>
                              { baseRepo := ctx.baseRepo, headRepo := ctx.headRepo,
                                pull := ctx.pull, user := ctx.user, repoRelDir := mp.dir,
                                workspace := mp.workspace, projectConfig := some mp,
                                globalConfig := some config, commentArgs := [] }),
                             [LockEff.lock, LockEff.unlock])
          | Except.ok false =>
              match env.modifiedFiles with
              | Except.error e => (Except.error e, [LockEff.lock, LockEff.unlock])
              | Except.ok _ =>
                  (Except.ok (env.determineProjects.map fun path =>
                    { baseRepo := ctx.baseRepo, headRepo := ctx.headRepo, pull := ctx.pull,
                      user := ctx.user, repoRelDir := path, workspace := DefaultWorkspace,
                      projectConfig := none, globalConfig := none, commentArgs := [] }),
                   [LockEff.lock, LockEff.unlock])

/-- DefaultProjectCommandBuilder.BuildPlanCommand: lock the command's
workspace, clone, then build the single project context. -/
def DefaultProjectCommandBuilder.buildPlanCommand (b : DefaultProjectCommandBuilder)
    (env : BuilderEnv) (ctx : CommandContext) (cmd : CommentCommand) :
    Except String ProjectCommandContext × List LockEff :=
  match env.tryLockErr with
  | some e => (Except.error e, [])
  | none =>
      match env.cloneRes with
      | Except.error e => (Except.error e, [LockEff.lock, LockEff.unlock])
      | Except.ok repoDir =>
          (b.buildProjectCommandCtx env ctx cmd repoDir, [LockEff.lock, LockEff.unlock])

/-- DefaultProjectCommandBuilder.BuildApplyCommand: lock the command's
workspace, fetch the existing working directory (no clone), then build the
single project context. -/
def DefaultProjectCommandBuilder.buildApplyCommand (b : DefaultProjectCommandBuilder)
    (env : BuilderEnv) (ctx : CommandContext) (cmd : CommentCommand) :
    Except String ProjectCommandContext × List LockEff :=
  match env.tryLockErr with
  | some e => (Except.error e, [])
  | none =>
      match env.getWorkingDirRes with
      | Except.error e => (Except.error e, [LockEff.lock, LockEff.unlock])
      | Except.ok repoDir =>
          (b.buildProjectCommandCtx env ctx cmd repoDir, [LockEff.lock, LockEff.unlock])

/-- Lock discipline over a trace, starting from `n` locks held: a lock may
only be taken when none is held (at most one holder), a release only when one
is held, and the trace must end with none held. -/
def locksOk : Nat → List LockEff → Bool
  | n, [] => n = 0
  | n, LockEff.lock :: t => n = 0 && locksOk 1 t
  | n, LockEff.unlock :: t => n = 1 && locksOk 0 t

/-- log.Record: the fields CapitalizeHandler touches (the level stands for
all the untouched fields). -/
structure LogRecord where
  lvl : Nat
  msg : String
deriving DecidableEq

/-- The first-rune uppercasing CapitalizeHandler applies to a non-empty
message. -/
def capitalizeFirst (s : String) : String :=
  match s.data with
  | [] => s
  | c :: cs => String.mk (Char.toUpper c :: cs)

/-- logging.CapitalizeHandler: convert the message to runes, overwrite rune 0
with its uppercase form, and forward to the wrapped handler.  Indexing
runes[0] of an empty message is a runtime panic, modelled as `none`. -/
def CapitalizeHandler {α : Type} (h : LogRecord → α) (r : LogRecord) : Option α :=
  match r.msg.data with
  | [] => none
  | c :: cs => some (h { r with msg := String.mk (Char.toUpper c :: cs) })

theorem forceClone_count_le_one (w : FileWorkspace) (env : CloneEnv) (cd : String) (hr : Repo)
    (p : PullRequest) : countGitClone (FileWorkspace.forceClone w env cd hr p).2 ≤ 1 := by
  unfold FileWorkspace.forceClone
  rcases env with ⟨de, rp, re, me, cr, ce⟩
  cases re <;> cases me <;> cases cr <;> cases ce <;> simp [countGitClone]

theorem clone_count_le_one (w : FileWorkspace) (env : CloneEnv) (b hr : Repo) (p : PullRequest)
    (ws : String) : countGitClone (FileWorkspace.clone w env b hr p ws).2 ≤ 1 := by
  have hfc := forceClone_count_le_one w env (w.cloneDir b p ws) hr p
  cases hde : env.dirExists
  · simpa [FileWorkspace.clone, hde] using hfc
  · cases hrp : env.revParse with
    | ok o =>
        by_cases ht : trimNewlines o = p.headCommit
        · simp [FileWorkspace.clone, hde, hrp, ht, countGitClone]
        · simpa [FileWorkspace.clone, hde, hrp, ht, countGitClone] using hfc
    | err o e => simpa [FileWorkspace.clone, hde, hrp, countGitClone] using hfc

theorem clone_eq_force (w : FileWorkspace) (b hr : Repo) (p : PullRequest) (ws : String)
    (env : CloneEnv) (hf : needsForce env p) :
    FileWorkspace.clone w env b hr p ws =
      ((FileWorkspace.forceClone w env (w.cloneDir b p ws) hr p).1,
       statEff env (w.cloneDir b p ws) ++ (FileWorkspace.forceClone w env (w.cloneDir b p ws) hr p).2) := by
  rcases hf with hde | ⟨o, e, hrp⟩ | ⟨o, hrp, hne⟩
  · simp [FileWorkspace.clone, statEff, hde]
  · cases hde : env.dirExists <;> simp [FileWorkspace.clone, statEff, hde, hrp]
  · cases hde : env.dirExists <;> simp [FileWorkspace.clone, statEff, hde, hrp, hne]

/-- C1: when the clone directory for (baseRepo, pr, workspace) already exists
and `git rev-parse HEAD` there succeeds with (trimmed) output equal to the PR
head commit, Clone returns that directory with no error and its only effect
is the rev-parse check: the directory is left unchanged and no `git clone`
subprocess is spawned; consequently any two consecutive Clone calls whose
second call sees the directory at the head commit spawn at most one
`git clone` between them. -/
theorem clone_idempotent_at_head (w : FileWorkspace) (baseRepo headRepo : Repo) (p : PullRequest)
    (ws out : String) (env1 env2 : CloneEnv)
    (h1 : env2.dirExists = true) (h2 : env2.revParse = CmdResult.ok out)
    (h3 : trimNewlines out = p.headCommit) :
    FileWorkspace.clone w env2 baseRepo headRepo p ws =
      (Except.ok (w.cloneDir baseRepo p ws), [Eff.gitRevParse (w.cloneDir baseRepo p ws)]) ∧
    countGitClone (FileWorkspace.clone w env1 baseRepo headRepo p ws).2 +
      countGitClone (FileWorkspace.clone w env2 baseRepo headRepo p ws).2 ≤ 1 := by
  have hmain : FileWorkspace.clone w env2 baseRepo headRepo p ws =
      (Except.ok (w.cloneDir baseRepo p ws), [Eff.gitRevParse (w.cloneDir baseRepo p ws)]) := by
    simp [FileWorkspace.clone, h1, h2, h3]
  refine ⟨hmain, ?_⟩
  have hle := clone_count_le_one w env1 baseRepo headRepo p ws
  rw [hmain]
  simpa [countGitClone] using hle

/-- C1 witness: a concrete workspace whose directory is already at the head
commit, instantiating the theorem. -/
theorem clone_idempotent_at_head_witness :
    trimNewlines "abc\n" = (PullRequest.mk 1 "abc" "br").headCommit ∧
    FileWorkspace.clone (FileWorkspace.mk "/d" "")
        (CloneEnv.mk true (CmdResult.ok "abc\n") none none (CmdResult.ok "") none)
        (Repo.mk "o/r" "o" "u" "su") (Repo.mk "o/r" "o" "u" "su") (PullRequest.mk 1 "abc" "br")
        "default" =
      (Except.ok ((FileWorkspace.mk "/d" "").cloneDir (Repo.mk "o/r" "o" "u" "su")
          (PullRequest.mk 1 "abc" "br") "default"),
       [Eff.gitRevParse ((FileWorkspace.mk "/d" "").cloneDir (Repo.mk "o/r" "o" "u" "su")
          (PullRequest.mk 1 "abc" "br") "default")]) :=
  ⟨by decide,
   (clone_idempotent_at_head (FileWorkspace.mk "/d" "") (Repo.mk "o/r" "o" "u" "su")
      (Repo.mk "o/r" "o" "u" "su") (PullRequest.mk 1 "abc" "br") "default" "abc\n"
      (CloneEnv.mk true (CmdResult.ok "abc\n") none none (CmdResult.ok "") none)
      (CloneEnv.mk true (CmdResult.ok "abc\n") none none (CmdResult.ok "") none)
      rfl rfl (by decide)).1⟩

/-- C2: when the clone directory is absent, or `git rev-parse HEAD` fails, or
its output differs from the PR head commit, Clone force-clones: it deletes
the directory, recreates it with permissions 0700, runs `git clone` of the
head repo clone URL (or the non-empty testing override URL), checks out the
PR branch, and returns the path; and on a `git clone` failure (second
environment) it returns an error wrapping the subprocess output. -/
theorem clone_force_clone_spec (w : FileWorkspace) (baseRepo headRepo : Repo) (p : PullRequest)
    (ws co out emsg : String) (env env' : CloneEnv)
    (hf : needsForce env p) (hrm : env.removeErr = none) (hmk : env.mkdirErr = none)
    (hcl : env.cloneRes = CmdResult.ok co) (hco : env.checkoutErr = none)
    (hf' : needsForce env' p) (hrm' : env'.removeErr = none) (hmk' : env'.mkdirErr = none)
    (hcl' : env'.cloneRes = CmdResult.err out emsg) :
    FileWorkspace.clone w env baseRepo headRepo p ws =
      (Except.ok (w.cloneDir baseRepo p ws),
       statEff env (w.cloneDir baseRepo p ws) ++
         [Eff.removeAll (w.cloneDir baseRepo p ws),
          Eff.mkdirAll (w.cloneDir baseRepo p ws) 448,
          Eff.gitClone
            (if w.testingOverrideCloneURL ≠ "" then w.testingOverrideCloneURL else headRepo.cloneURL)
            (w.cloneDir baseRepo p ws),
          Eff.gitCheckout p.branch (w.cloneDir baseRepo p ws)]) ∧
    (FileWorkspace.clone w env' baseRepo headRepo p ws).1 =
      Except.error ("cloning " ++ headRepo.sanitizedCloneURL ++ ": " ++ out ++ ": " ++ emsg) := by
  constructor
  · rw [clone_eq_force w baseRepo headRepo p ws env hf]
    simp [FileWorkspace.forceClone, hrm, hmk, hcl, hco]
  · rw [clone_eq_force w baseRepo headRepo p ws env' hf']
    simp [FileWorkspace.forceClone, hrm', hmk', hcl']

/-- C2 witness: a concrete absent directory force-cloned successfully, and a
concrete stale directory whose re-clone fails, instantiating the theorem. -/
theorem clone_force_clone_spec_witness :
    needsForce (CloneEnv.mk false (CmdResult.ok "") none none (CmdResult.ok "done") none)
        (PullRequest.mk 1 "abc" "br") ∧
    FileWorkspace.clone (FileWorkspace.mk "/d" "")
        (CloneEnv.mk false (CmdResult.ok "") none none (CmdResult.ok "done") none)
        (Repo.mk "o/r" "o" "u" "su") (Repo.mk "o/r" "o" "u" "su") (PullRequest.mk 1 "abc" "br")
        "default" =
      (Except.ok ((FileWorkspace.mk "/d" "").cloneDir (Repo.mk "o/r" "o" "u" "su")
          (PullRequest.mk 1 "abc" "br") "default"),
       statEff (CloneEnv.mk false (CmdResult.ok "") none none (CmdResult.ok "done") none)
           ((FileWorkspace.mk "/d" "").cloneDir (Repo.mk "o/r" "o" "u" "su")
             (PullRequest.mk 1 "abc" "br") "default") ++
         [Eff.removeAll ((FileWorkspace.mk "/d" "").cloneDir (Repo.mk "o/r" "o" "u" "su")
             (PullRequest.mk 1 "abc" "br") "default"),
          Eff.mkdirAll ((FileWorkspace.mk "/d" "").cloneDir (Repo.mk "o/r" "o" "u" "su")
             (PullRequest.mk 1 "abc" "br") "default") 448,
          Eff.gitClone
            (if (FileWorkspace.mk "/d" "").testingOverrideCloneURL ≠ "" then
                (FileWorkspace.mk "/d" "").testingOverrideCloneURL
              else (Repo.mk "o/r" "o" "u" "su").cloneURL)
            ((FileWorkspace.mk "/d" "").cloneDir (Repo.mk "o/r" "o" "u" "su")
              (PullRequest.mk 1 "abc" "br") "default"),
          Eff.gitCheckout (PullRequest.mk 1 "abc" "br").branch
            ((FileWorkspace.mk "/d" "").cloneDir (Repo.mk "o/r" "o" "u" "su")
              (PullRequest.mk 1 "abc" "br") "default")]) ∧
    (FileWorkspace.clone (FileWorkspace.mk "/d" "")
        (CloneEnv.mk true (CmdResult.err "old\n" "boom") none none
          (CmdResult.err "fatal: no access" "exit status 128") none)
        (Repo.mk "o/r" "o" "u" "su") (Repo.mk "o/r" "o" "u" "su") (PullRequest.mk 1 "abc" "br")
        "default").1 =
      Except.error ("cloning " ++ (Repo.mk "o/r" "o" "u" "su").sanitizedCloneURL ++ ": " ++
        "fatal: no access" ++ ": " ++ "exit status 128") := by
  have h := clone_force_clone_spec (FileWorkspace.mk "/d" "") (Repo.mk "o/r" "o" "u" "su")
    (Repo.mk "o/r" "o" "u" "su") (PullRequest.mk 1 "abc" "br") "default" "done"
    "fatal: no access" "exit status 128"
    (CloneEnv.mk false (CmdResult.ok "") none none (CmdResult.ok "done") none)
    (CloneEnv.mk true (CmdResult.err "old\n" "boom") none none
      (CmdResult.err "fatal: no access" "exit status 128") none)
    (Or.inl rfl) rfl rfl rfl rfl
    (Or.inr (Or.inl ⟨"old\n", "boom", rfl⟩)) rfl rfl rfl
  exact ⟨Or.inl rfl, h.1, h.2⟩

/-- C3 counterexample: with a config file present, repo config allowed, an
empty project name and a (dir, workspace) lookup with zero matches, getCfg
returns (nil, nil, nil) — not (nil, &cfg, nil) as the claim states: the
parsed config is not returned alongside the nil project. -/
theorem getCfg_zero_matches_counterexample :
    DefaultProjectCommandBuilder.getCfg (DefaultProjectCommandBuilder.mk true "allow-repo-config")
        (BuilderEnv.mk none (Except.ok "/repo") (Except.ok "/repo") (Except.ok true)
          (Except.ok (ValidConfig.mk [])) (Except.ok []) [] (Except.ok []))
        "" "." "default" "/repo" = Except.ok (none, none) ∧
    DefaultProjectCommandBuilder.getCfg (DefaultProjectCommandBuilder.mk true "allow-repo-config")
        (BuilderEnv.mk none (Except.ok "/repo") (Except.ok "/repo") (Except.ok true)
          (Except.ok (ValidConfig.mk [])) (Except.ok []) [] (Except.ok []))
        "" "." "default" "/repo" ≠ Except.ok (none, some (ValidConfig.mk [])) := by
  constructor
  · rfl
  · intro h
    simp [DefaultProjectCommandBuilder.getCfg, ValidConfig.findProjectsByDirWorkspace] at h

/-- C3 (amended): getCfg policy — with no config file it fails exactly when
the project name is non-empty and otherwise returns (nil, nil, nil); with a
config file present, repo config allowed and an empty project name, a
(dir, workspace) lookup with zero matches returns (nil, nil, nil), exactly
one match returns (&match, &cfg, nil), and more than one match fails with
the must-specify-project-name error. -/
theorem getCfg_policy (b : DefaultProjectCommandBuilder) (env : BuilderEnv)
    (pn dir ws rd : String) (cfg : ValidConfig) (pc pc2 : ValidProject) (l : List ValidProject) :
    (env.hasConfigFile = Except.ok false → pn ≠ "" →
      ∃ e, b.getCfg env pn dir ws rd = Except.error e) ∧
    (env.hasConfigFile = Except.ok false → pn = "" →
      b.getCfg env pn dir ws rd = Except.ok (none, none)) ∧
    (env.hasConfigFile = Except.ok true → b.allowRepoConfig = true →
      env.readConfig = Except.ok cfg → pn = "" →
      cfg.findProjectsByDirWorkspace dir ws = [] →
      b.getCfg env pn dir ws rd = Except.ok (none, none)) ∧
    (env.hasConfigFile = Except.ok true → b.allowRepoConfig = true →
      env.readConfig = Except.ok cfg → pn = "" →
      cfg.findProjectsByDirWorkspace dir ws = [pc] →
      b.getCfg env pn dir ws rd = Except.ok (some pc, some cfg)) ∧
    (env.hasConfigFile = Except.ok true → b.allowRepoConfig = true →
      env.readConfig = Except.ok cfg → pn = "" →
      cfg.findProjectsByDirWorkspace dir ws = pc :: pc2 :: l →
      b.getCfg env pn dir ws rd =
        Except.error ("must specify project name: more than one project defined in atlantis.yaml matched dir: \"" ++ dir ++ "\" workspace: \"" ++ ws ++ "\"")) := by
  refine ⟨?_, ?_, ?_, ?_, ?_⟩
  · intro h hpn
    exact ⟨"cannot specify a project name unless an atlantis.yaml file exists to configure projects",
      by simp [DefaultProjectCommandBuilder.getCfg, h, hpn]⟩
  · intro h hpn
    simp [DefaultProjectCommandBuilder.getCfg, h, hpn]
  · intro hc ha hr hpn hz
    simp [DefaultProjectCommandBuilder.getCfg, hc, ha, hr, hpn, hz]
  · intro hc ha hr hpn h1
    simp [DefaultProjectCommandBuilder.getCfg, hc, ha, hr, hpn, h1]
  · intro hc ha hr hpn h2
    simp [DefaultProjectCommandBuilder.getCfg, hc, ha, hr, hpn, h2]

/-- C3 witness: a concrete config with exactly one project matching the
comment's dir and workspace, instantiating the one-match case. -/
theorem getCfg_policy_witness :
    (ValidConfig.mk [ValidProject.mk "." "default" none]).findProjectsByDirWorkspace "." "default" =
      [ValidProject.mk "." "default" none] ∧
    DefaultProjectCommandBuilder.getCfg (DefaultProjectCommandBuilder.mk true "allow-repo-config")
        (BuilderEnv.mk none (Except.ok "/repo") (Except.ok "/repo") (Except.ok true)
          (Except.ok (ValidConfig.mk [ValidProject.mk "." "default" none])) (Except.ok []) []
          (Except.ok []))
        "" "." "default" "/repo" =
      Except.ok (some (ValidProject.mk "." "default" none),
        some (ValidConfig.mk [ValidProject.mk "." "default" none])) :=
  ⟨by decide,
   (getCfg_policy (DefaultProjectCommandBuilder.mk true "allow-repo-config")
      (BuilderEnv.mk none (Except.ok "/repo") (Except.ok "/repo") (Except.ok true)
        (Except.ok (ValidConfig.mk [ValidProject.mk "." "default" none])) (Except.ok []) []
        (Except.ok []))
      "" "." "default" "/repo" (ValidConfig.mk [ValidProject.mk "." "default" none])
      (ValidProject.mk "." "default" none) (ValidProject.mk "." "default" none)
      []).2.2.2.1 rfl rfl rfl rfl (by decide)⟩

/-- C4 counterexample: a POST carrying both the X-Github-Event and the
X-Gitlab-Event headers IS dispatched — the controller branches on the GitHub
header first and hands the request to the GitHub path — contradicting the
claim that a request with both headers is dispatched to neither host path. -/
theorem post_both_headers_counterexample :
    ("push" : String) ≠ "" ∧ ("Note Hook" : String) ≠ "" ∧
    EventsController.post (EventsController.mk [VCSHostType.github, VCSHostType.gitlab]) false
        (fun _ => 0) "push" "Note Hook" "1234567890" = PostOutcome.dispatchGithub "1234567" := by
  refine ⟨by decide, by decide, ?_⟩
  rfl

/-- C4 (amended): a request with neither header is answered 400 "Ignoring
request" and not dispatched; when the GitHub header is present the request is
routed to the GitHub path regardless of the GitLab header (dispatched when
GitHub is supported, else 400); the GitLab path is used only when the GitLab
header is present and the GitHub header is absent. -/
theorem post_dispatch_policy (e : EventsController) (randErr : Bool) (rnd : Nat → Nat)
    (gh gl d : String) :
    (gh = "" → gl = "" →
      e.post randErr rnd gh gl d = PostOutcome.respond 400 "Ignoring request") ∧
    (gh ≠ "" → supportsHost e.supportedVCSHosts VCSHostType.github = true →
      e.post randErr rnd gh gl d = PostOutcome.dispatchGithub (githubRequestID randErr rnd d)) ∧
    (gh ≠ "" → supportsHost e.supportedVCSHosts VCSHostType.github = false →
      e.post randErr rnd gh gl d =
        PostOutcome.respond 400 "Ignoring request since not configured to support GitHub") ∧
    (gh = "" → gl ≠ "" → supportsHost e.supportedVCSHosts VCSHostType.gitlab = true →
      e.post randErr rnd gh gl d = PostOutcome.dispatchGitlab (genRequestID randErr rnd)) ∧
    (gh = "" → gl ≠ "" → supportsHost e.supportedVCSHosts VCSHostType.gitlab = false →
      e.post randErr rnd gh gl d =
        PostOutcome.respond 400 "Ignoring request since not configured to support GitLab") := by
  refine ⟨?_, ?_, ?_, ?_, ?_⟩
  · intro h1 h2
    simp [EventsController.post, h1, h2]
  · intro h1 h2
    simp [EventsController.post, h1, h2]
  · intro h1 h2
    simp [EventsController.post, h1, h2]
  · intro h1 h2 h3
    simp [EventsController.post, h1, h2, h3]
  · intro h1 h2 h3
    simp [EventsController.post, h1, h2, h3]

/-- C4 witness: a GitHub-supported controller receiving a GitHub-only request,
instantiating the GitHub dispatch case. -/
theorem post_dispatch_policy_witness :
    ("push" : String) ≠ "" ∧
    supportsHost [VCSHostType.github] VCSHostType.github = true ∧
    EventsController.post (EventsController.mk [VCSHostType.github]) false (fun _ => 0) "push" ""
        "1234567890" =
      PostOutcome.dispatchGithub (githubRequestID false (fun _ => 0) "1234567890") :=
  ⟨by decide, rfl,
   (post_dispatch_policy (EventsController.mk [VCSHostType.github]) false (fun _ => 0) "push" ""
      "1234567890").2.1 (by decide) rfl⟩

/-- C5: when the comment parser answers ignore=true, handleCommentEvent
responds 200 logging the comment truncated to 40 characters, creates no VCS
comment and never invokes the command runner (the effect trace is empty). -/
theorem handleCommentEvent_ignore (env : CommentEnv) (baseRepo : Repo) (pullNum : Int)
    (comment : String) (hig : env.parseResult.ignore = true) :
    handleCommentEvent env baseRepo pullNum comment =
      ({ code := 200, msg := "Ignoring non-command",
         logKV := [("comment", truncateComment comment)] }, []) := by
  simp [handleCommentEvent, hig]

/-- C5 witness: a concrete ignored comment. -/
theorem handleCommentEvent_ignore_witness :
    (CommentEnv.mk (CommentParseResult.mk true "") true).parseResult.ignore = true ∧
    handleCommentEvent (CommentEnv.mk (CommentParseResult.mk true "") true)
        (Repo.mk "o/r" "o" "u" "su") 5 "just chatting" =
      ({ code := 200, msg := "Ignoring non-command",
         logKV := [("comment", truncateComment "just chatting")] }, []) :=
  ⟨rfl,
   handleCommentEvent_ignore (CommentEnv.mk (CommentParseResult.mk true "") true)
     (Repo.mk "o/r" "o" "u" "su") 5 "just chatting" rfl⟩

/-- C6: when BuildAutoplanCommands finds a config file, repo config is
allowed, and no project in the config matches the modified files (the
finder returns the empty list), it returns the empty context list with no
error — and, the builder emitting no comment effects at all, no comment. -/
theorem buildAutoplan_no_matching_projects (b : DefaultProjectCommandBuilder) (env : BuilderEnv)
    (ctx : CommandContext) (rd : String) (cfg : ValidConfig) (mfs : List String)
    (hl : env.tryLockErr = none) (hc : env.cloneRes = Except.ok rd)
    (hcf : env.hasConfigFile = Except.ok true) (ha : b.allowRepoConfig = true)
    (hrc : env.readConfig = Except.ok cfg) (hmf : env.modifiedFiles = Except.ok mfs)
    (hpv : env.projectsViaConfig = Except.ok []) :
    b.buildAutoplanCommands env ctx = (Except.ok [], [LockEff.lock, LockEff.unlock]) := by
  simp [DefaultProjectCommandBuilder.buildAutoplanCommands, hl, hc, hcf, ha, hrc, hmf, hpv]

/-- C6 witness: a concrete config whose projects match none of the modified
files. -/
theorem buildAutoplan_no_matching_projects_witness :
    (BuilderEnv.mk none (Except.ok "/repo") (Except.ok "/repo") (Except.ok true)
        (Except.ok (ValidConfig.mk [ValidProject.mk "infra" "default" none]))
        (Except.ok ["docs/readme.md"]) [] (Except.ok [])).projectsViaConfig = Except.ok [] ∧
    DefaultProjectCommandBuilder.buildAutoplanCommands
        (DefaultProjectCommandBuilder.mk true "allow-repo-config")
        (BuilderEnv.mk none (Except.ok "/repo") (Except.ok "/repo") (Except.ok true)
          (Except.ok (ValidConfig.mk [ValidProject.mk "infra" "default" none]))
          (Except.ok ["docs/readme.md"]) [] (Except.ok []))
        (CommandContext.mk (Repo.mk "o/r" "o" "u" "su") (Repo.mk "o/r" "o" "u" "su")
          (PullRequest.mk 1 "abc" "br") "alice") =
      (Except.ok [], [LockEff.lock, LockEff.unlock]) :=
  ⟨rfl,
   buildAutoplan_no_matching_projects (DefaultProjectCommandBuilder.mk true "allow-repo-config")
     (BuilderEnv.mk none (Except.ok "/repo") (Except.ok "/repo") (Except.ok true)
       (Except.ok (ValidConfig.mk [ValidProject.mk "infra" "default" none]))
       (Except.ok ["docs/readme.md"]) [] (Except.ok []))
     (CommandContext.mk (Repo.mk "o/r" "o" "u" "su") (Repo.mk "o/r" "o" "u" "su")
       (PullRequest.mk 1 "abc" "br") "alice")
     "/repo" (ValidConfig.mk [ValidProject.mk "infra" "default" none]) ["docs/readme.md"]
     rfl rfl rfl rfl rfl rfl rfl⟩

theorem autoplan_trace_cases (b : DefaultProjectCommandBuilder) (env : BuilderEnv)
    (ctx : CommandContext) :
    (b.buildAutoplanCommands env ctx).2 = [] ∨
    (b.buildAutoplanCommands env ctx).2 = [LockEff.lock, LockEff.unlock] := by
  unfold DefaultProjectCommandBuilder.buildAutoplanCommands
  repeat' split
  all_goals simp

theorem plan_trace_cases (b : DefaultProjectCommandBuilder) (env : BuilderEnv)
    (ctx : CommandContext) (cmd : CommentCommand) :
    (b.buildPlanCommand env ctx cmd).2 = [] ∨
    (b.buildPlanCommand env ctx cmd).2 = [LockEff.lock, LockEff.unlock] := by
  unfold DefaultProjectCommandBuilder.buildPlanCommand
  repeat' split
  all_goals simp

theorem apply_trace_cases (b : DefaultProjectCommandBuilder) (env : BuilderEnv)
    (ctx : CommandContext) (cmd : CommentCommand) :
    (b.buildApplyCommand env ctx cmd).2 = [] ∨
    (b.buildApplyCommand env ctx cmd).2 = [LockEff.lock, LockEff.unlock] := by
  unfold DefaultProjectCommandBuilder.buildApplyCommand
  repeat' split
  all_goals simp

/-- C7: in every invocation of BuildAutoplanCommands, BuildPlanCommand or
BuildApplyCommand, whatever the collaborators answer, the workspace-lock
trace is disciplined: a lock is only taken when none is held (so at most one
is ever held) and every return path after a successful TryLock has released
it, leaving zero locks held at return. -/
theorem builder_lock_discipline (b : DefaultProjectCommandBuilder) (env : BuilderEnv)
    (ctx : CommandContext) (cmd : CommentCommand) :
    locksOk 0 (b.buildAutoplanCommands env ctx).2 = true ∧
    locksOk 0 (b.buildPlanCommand env ctx cmd).2 = true ∧
    locksOk 0 (b.buildApplyCommand env ctx cmd).2 = true := by
  refine ⟨?_, ?_, ?_⟩
  · rcases autoplan_trace_cases b env ctx with h | h <;> rw [h] <;> decide
  · rcases plan_trace_cases b env ctx cmd with h | h <;> rw [h] <;> decide
  · rcases apply_trace_cases b env ctx cmd with h | h <;> rw [h] <;> decide

/-- C8 (code bug): for a working directory that does not exist, os.Stat
reports a not-exist *PathError, but GetWorkingDir returns it wrapped by
pkg/errors, and os.IsNotExist does not recognize the wrapper — even though it
does recognize the underlying error — contradicting the WorkingDir interface
documentation the claim restates.  When the directory exists the path is
returned with no error. -/
theorem getWorkingDir_wraps_notExist :
    FileWorkspace.getWorkingDir (FileWorkspace.mk "/data" "")
        (some (GoErr.pathError "stat" "/data/repos/o/r/1/default" true))
        (Repo.mk "o/r" "o" "u" "su") (PullRequest.mk 1 "abc" "br") "default" =
      Except.error (GoErr.withMessage "checking if workspace exists"
        (GoErr.pathError "stat" "/data/repos/o/r/1/default" true)) ∧
    isNotExist (GoErr.withMessage "checking if workspace exists"
        (GoErr.pathError "stat" "/data/repos/o/r/1/default" true)) = false ∧
    isNotExist (GoErr.pathError "stat" "/data/repos/o/r/1/default" true) = true ∧
    FileWorkspace.getWorkingDir (FileWorkspace.mk "/data" "") none (Repo.mk "o/r" "o" "u" "su")
        (PullRequest.mk 1 "abc" "br") "default" = Except.ok "/data/repos/o/r/1/default" :=
  ⟨rfl, rfl, rfl, rfl⟩

theorem hexEncodeBytes_length (bs : List Nat) : (hexEncodeBytes bs).length = 2 * bs.length := by
  induction bs with
  | nil => rfl
  | cons b t ih =>
      simp only [hexEncodeBytes, List.length_cons, ih]
      omega

/-- C9 counterexample: on the GitLab branch the request ID attached to the
logger is genRequestID, the hex encoding of 7 random bytes — a 14-character
string, not 7 as the claim states. -/
theorem gitlab_request_id_not_seven :
    EventsController.post (EventsController.mk [VCSHostType.gitlab]) false (fun _ => 0) ""
        "Note Hook" "" = PostOutcome.dispatchGitlab (genRequestID false (fun _ => 0)) ∧
    (genRequestID false (fun _ => 0)).length = 14 ∧
    (genRequestID false (fun _ => 0)).length ≠ 7 := by
  refine ⟨rfl, by decide, by decide⟩

/-- C9 (amended): request IDs on the GitHub branch are exactly reqIDSize = 7
characters — the Delivery header padded with random hex when shorter,
truncated otherwise, with the 7-character "genfail" fallback; the GitLab
branch ID is the hex encoding of 7 random bytes, i.e. 14 characters, or
"genfail" when reading randomness fails. -/
theorem request_id_lengths (randErr : Bool) (rnd : Nat → Nat) (header : String) :
    (githubRequestID randErr rnd header).length = reqIDSize ∧
    (genRequestID false rnd).length = 2 * reqIDSize ∧
    genRequestID true rnd = "genfail" := by
  refine ⟨?_, ?_, rfl⟩
  · cases randErr
    · simp only [githubRequestID, Bool.false_eq_true, if_false, String.length]
      rw [List.length_take, List.length_append, hexEncodeBytes_length]
      simp only [List.length_map, List.length_range, reqIDSize]
      omega
    · rfl
  · simp only [genRequestID, Bool.false_eq_true, if_false, String.length]
    rw [hexEncodeBytes_length]
    simp

/-- C10: CapitalizeHandler forwards any record with a non-empty message to
the wrapped handler with the first rune uppercased and everything else
unchanged, and hits the empty-slice index panic (modelled as none) exactly on
records whose message is empty — so callers must guarantee non-empty log
messages. -/
theorem capitalizeHandler_spec {α : Type} (h : LogRecord → α) (r : LogRecord) :
    (r.msg ≠ "" → CapitalizeHandler h r = some (h { r with msg := capitalizeFirst r.msg })) ∧
    (r.msg = "" → CapitalizeHandler h r = none) := by
  rcases r with ⟨lvl, msg⟩
  rcases msg with ⟨data⟩
  cases data with
  | nil =>
      refine ⟨fun hne => absurd rfl hne, fun _ => rfl⟩
  | cons c cs =>
      refine ⟨fun _ => rfl, fun he => ?_⟩
      simpa using congrArg String.data he

/-- C10 witness: a concrete two-character message is forwarded capitalized,
and a concrete empty message panics. -/
theorem capitalizeHandler_spec_witness :
    (LogRecord.mk 1 "ab").msg ≠ "" ∧
    CapitalizeHandler (fun r => r) (LogRecord.mk 1 "ab") = some (LogRecord.mk 1 "Ab") ∧
    CapitalizeHandler (fun r => r) (LogRecord.mk 1 "") = none := by
  refine ⟨by decide, ?_, ?_⟩
  · have h := (capitalizeHandler_spec (fun r => r) (LogRecord.mk 1 "ab")).1 (by decide)
    rw [h]
    decide
  · exact (capitalizeHandler_spec (fun r => r) (LogRecord.mk 1 "")).2 rfl
